import Mathlib

/-!
# Verification of the Transaction-Gains statement extraction engine

A shallow embedding of `src/statement_reader.py`: the two token-stream
extraction functions `chase_statement_extract` and `schwab_statement_extract`
are translated into total Lean functions over page-segmented lists of token
texts.  A pymupdf page is modelled as the list of its word texts in reading
order (the Python code only ever uses `word[4]`, the text).  Python `dict`s
become insertion-ordered association lists, Python exceptions caught by the
`try/except` blocks become `Option`-style control flow inside the step
functions, and the one uncaught exception reachable in
`schwab_statement_extract` (`text[0]` on an empty token) makes the Schwab
extractor return `Option`.

Numeric values are modelled over `ℚ`: the Python code only parses decimal
literals and stores them, it performs no arithmetic on the parsed doubles,
so every value the code can produce from the statements it handles is an
exactly representable decimal.  `pyInt` and `pyFloat` model Python `int()` /
`float()` on ASCII decimal literals (optional surrounding whitespace,
optional sign, digits, and for `float` an optional fractional part); the
exotic forms (`inf`, `nan`, exponents, underscore separators, non-ASCII
digits) do not occur in statement tokens and are modelled as parse failures.
-/

set_option maxRecDepth 100000

namespace StatementReader

/-! ## Python string and number primitives -/

/-- The decimal value of a list of ASCII digit characters (Python's
`int` on a digit string). -/
def digitsToNat (l : List Char) : Nat :=
  l.foldl (fun a c => a * 10 + (c.toNat - '0'.toNat)) 0

/-- Strip whitespace from both ends, as Python's `str.strip()` used by
`int()`/`float()` before parsing. -/
def pyStrip (l : List Char) : List Char :=
  ((l.dropWhile Char.isWhitespace).reverse.dropWhile Char.isWhitespace).reverse

/-- Sign-less core of `int()`: a nonempty run of ASCII digits. -/
def pyIntMag (l : List Char) : Option Int :=
  if l ≠ [] ∧ l.all Char.isDigit then some (digitsToNat l) else none

/-- Model of Python `int(s)` on ASCII decimal strings: `none` models a
raised `ValueError`. -/
def pyInt (s : String) : Option Int :=
  match pyStrip s.toList with
  | '+' :: rest => pyIntMag rest
  | '-' :: rest => (pyIntMag rest).map Neg.neg
  | l => pyIntMag l

/-- Sign-less core of `float()`: digits with an optional `.` and fractional
digits, at least one digit overall. -/
def pyFloatMag (l : List Char) : Option ℚ :=
  let ip := l.takeWhile (· ≠ '.')
  match l.dropWhile (· ≠ '.') with
  | [] =>
    if ip ≠ [] ∧ ip.all Char.isDigit then some (digitsToNat ip) else none
  | '.' :: fp =>
    if (ip ≠ [] ∨ fp ≠ []) ∧ ip.all Char.isDigit ∧ fp.all Char.isDigit then
      some (mkRat (digitsToNat (ip ++ fp)) (10 ^ fp.length))
    else none
  | _ :: _ => none

/-- Model of Python `float(s)` on ASCII decimal literals: `none` models a
raised `ValueError` (in particular on thousands separators: `float("12,345.67")`
raises in Python, since `str.replace` in the source only removes `$`). -/
def pyFloat (s : String) : Option ℚ :=
  match pyStrip s.toList with
  | '+' :: rest => pyFloatMag rest
  | '-' :: rest => (pyFloatMag rest).map Neg.neg
  | l => pyFloatMag l

/-- Python `s.replace(c, '')`: remove every occurrence of the character `c`
(the only `str.replace` calls in the source delete a single character). -/
def delChar (c : Char) (s : String) : String :=
  ⟨s.toList.filter (· ≠ c)⟩

/-- Python `s[-n:]`: the last `n` characters (the whole string when shorter). -/
def pyLast (n : Nat) (s : String) : String :=
  ⟨s.toList.drop (s.toList.length - n)⟩

/-- Python `s[:-1]`: drop the final character (identity on `""`). -/
def dropLast1 (s : String) : String :=
  ⟨s.toList.dropLast⟩

/-- Python `s.lower()` on the ASCII month tokens. -/
def pyLower (s : String) : String :=
  ⟨s.toList.map Char.toLower⟩

/-- Prefix test: `startsWithCh p l` holds when `p` is a leading run of `l`. -/
def startsWithCh : List Char → List Char → Bool
  | [], _ => true
  | _ :: _, [] => false
  | a :: as, b :: bs => a = b && startsWithCh as bs

/-- Substring test: `hasSubstr p l` holds when `p` occurs contiguously in `l`; models
Python's `p in text` on strings. -/
def hasSubstr (p : List Char) : List Char → Bool
  | [] => startsWithCh p []
  | l@(_ :: rest) => startsWithCh p l || hasSubstr p rest

/-- The `Months` enum of the source: case-normalised month name to the
two-digit month string; `none` models the `KeyError` of `Months[month]`. -/
def monthsVal (s : String) : Option String :=
  if s = "january" then some "01"
  else if s = "february" then some "02"
  else if s = "march" then some "03"
  else if s = "april" then some "04"
  else if s = "may" then some "05"
  else if s = "june" then some "06"
  else if s = "july" then some "07"
  else if s = "august" then some "08"
  else if s = "september" then some "09"
  else if s = "october" then some "10"
  else if s = "november" then some "11"
  else if s = "december" then some "12"
  else none

/-! ## The data model -/

/-- A page of the document: the `word[4]` texts of
`page.get_text('words', sort=True)` in reading order. -/
abbrev Page := List String

/-- One account's extracted fields, the inner dictionary
`{'date': ..., 'prev_period_val': ..., 'cur_period_val': ..., 'short_net': ...,
'short_net_YTD': ..., 'long_net': ..., 'long_net_YTD': ...}`; `none` is the
`None` sentinel (an Unset slot). -/
structure AccountRec where
  date : Option String
  prev_period_val : Option ℚ
  cur_period_val : Option ℚ
  short_net : Option ℚ
  short_net_YTD : Option ℚ
  long_net : Option ℚ
  long_net_YTD : Option ℚ
  deriving DecidableEq, Repr

/-- The all-`None` record installed when an account is first sighted. -/
def emptyRec : AccountRec :=
  ⟨none, none, none, none, none, none, none⟩

/-- Model of `statement_data`: a Python dict as an insertion-ordered association
list with unique keys. -/
abbrev Data := List (String × AccountRec)

/-- Dict lookup `statement_data[k]`: `none` models a `KeyError`. -/
def lookup : Data → String → Option AccountRec
  | [], _ => none
  | (k', r) :: rest, k => if k' = k then some r else lookup rest k

/-- Conditional insert `if not k in statement_data: statement_data[k] = emptyRec`. -/
def insertIfAbsent (d : Data) (k : String) : Data :=
  if (lookup d k).isSome then d else d ++ [(k, emptyRec)]

/-- Field write `statement_data[k][field] = v`, as a record update under key `k`. -/
def updateRec (d : Data) (k : String) (f : AccountRec → AccountRec) : Data :=
  d.map (fun kr => if kr.1 = k then (kr.1, f kr.2) else kr)

/-- Unconditional dict assignment `statement_data[k] = r` (overwrite in
place, or append when absent). -/
def dictSet (d : Data) (k : String) (r : AccountRec) : Data :=
  if (lookup d k).isSome then d.map (fun kr => if kr.1 = k then (kr.1, r) else kr)
  else d ++ [(k, r)]

/-! ## `chase_statement_extract`

The per-page scanner state of the Chase extractor.  `date` survives across
pages (`month, day, year, date` are declared before the page loop);
`accNumber`, `pageFlag` and the three matcher flags are re-initialised on
every page.  Each flag models `x == None` on the corresponding Python local
(`cur_period_value`, `short_term_net_gains`, `long_term_net_gains`): the
flag is `true` exactly when the local is non-`None`, which happens exactly
when a match of that block ran to completion (every failure path resets the
local to `None` in its `except`). -/

structure ChaseState where
  data : Data
  date : Option String
  accNumber : Option String
  pageFlag : Bool
  curFlag : Bool
  stFlag : Bool
  ltFlag : Bool
  deriving DecidableEq, Repr

/-- The `'Acct' in text` block (source lines 81–96).  `ret[i+2][4]` is
fetched, `)` removed, the last four characters kept; `acc_number` keeps the
processed string whenever `int()` succeeds (even when the value is `0`, in
which case neither `page_flag` is set nor a record created), and is reset to
`None` on `IndexError`/`ValueError`. -/
def chaseAcctBlock (ret : Page) (i : Nat) (text : String) (st : ChaseState) :
    ChaseState :=
  if hasSubstr "Acct".toList text.toList then
    match ret.get? (i + 2) with
    | none => { st with accNumber := none }
    | some t2 =>
      let a := pyLast 4 (delChar ')' t2)
      match pyInt a with
      | none => { st with accNumber := none }
      | some n =>
        if n ≠ 0 then
          { st with accNumber := some a, pageFlag := true,
                    data := insertIfAbsent st.data a }
        else { st with accNumber := some a }
  else st

/-- The `text == 'Statement'` block (source lines 103–113): on
`Period:` at `i+1`, the month token at `i+2` (lowered), the day token at
`i+6` with its last character removed, and the year at `i+7` build the
document-global date once `Months[month]` resolves and `int(day)`,
`int(year)` are truthy; every failure leaves `date` as it was (`None`). -/
def chaseDateBlock (ret : Page) (i : Nat) (text : String) (st : ChaseState) :
    ChaseState :=
  if st.date = none ∧ text = "Statement" then
    match ret.get? (i + 1) with
    | some t1 =>
      if t1 = "Period:" then
        match ret.get? (i + 2), ret.get? (i + 6), ret.get? (i + 7) with
        | some mTok, some dTok, some yTok =>
          let day := dropLast1 dTok
          match monthsVal (pyLower mTok), pyInt day, pyInt yTok with
          | some mv, some dn, some yn =>
            if dn ≠ 0 ∧ yn ≠ 0 then
              { st with date := some (yTok ++ "-" ++ mv ++ "-" ++ day) }
            else st
          | _, _, _ => st
        | _, _, _ => st
      else st
    | none => st
  else st

/-- The `text == 'TOTAL'` block (source lines 116–124).  After the
`ACCOUNT`/`VALUE` context check, `$` is stripped from the value tokens at
`i+3` and `i+4`; the two dict writes are sequential, with each `float()`
evaluated at its own write, so a failure on the second conversion leaves
the first slot already written (and the `except` resets only the page-local
flag). -/
def chaseTotalBlock (ret : Page) (i : Nat) (text : String) (st : ChaseState) :
    ChaseState :=
  if st.curFlag = false ∧ text = "TOTAL" then
    match ret.get? (i + 1), ret.get? (i + 2) with
    | some "ACCOUNT", some "VALUE" =>
      match ret.get? (i + 3), ret.get? (i + 4) with
      | some p3, some p4 =>
        let prevS := delChar '$' p3
        let curS := delChar '$' p4
        match pyFloat prevS with
        | none => st
        | some pv =>
          match st.accNumber with
          | none => st
          | some k =>
            if (lookup st.data k).isSome then
              let d1 := updateRec st.data k
                (fun r => { r with prev_period_val := some pv })
              match pyFloat curS with
              | none => { st with data := d1 }
              | some cv =>
                { st with
                    data := updateRec d1 k
                      (fun r => { r with cur_period_val := some cv }),
                    curFlag := true }
            else st
      | _, _ => st
    | _, _ => st
  else st

/-- The `text == 'Short-Term'` block (source lines 127–135): context
`Net`/`Gain` at `i+1`/`i+2`, values at `i+5`/`i+6`, same sequential-write
shape as the `TOTAL` block. -/
def chaseShortBlock (ret : Page) (i : Nat) (text : String) (st : ChaseState) :
    ChaseState :=
  if st.stFlag = false ∧ text = "Short-Term" then
    match ret.get? (i + 1), ret.get? (i + 2) with
    | some "Net", some "Gain" =>
      match ret.get? (i + 5), ret.get? (i + 6) with
      | some p5, some p6 =>
        let sS := delChar '$' p5
        let syS := delChar '$' p6
        match pyFloat sS with
        | none => st
        | some sv =>
          match st.accNumber with
          | none => st
          | some k =>
            if (lookup st.data k).isSome then
              let d1 := updateRec st.data k
                (fun r => { r with short_net := some sv })
              match pyFloat syS with
              | none => { st with data := d1 }
              | some syv =>
                { st with
                    data := updateRec d1 k
                      (fun r => { r with short_net_YTD := some syv }),
                    stFlag := true }
            else st
      | _, _ => st
    | _, _ => st
  else st

/-- The `text == 'Long-Term'` block (source lines 138–146), the long-term
twin of the short-term block. -/
def chaseLongBlock (ret : Page) (i : Nat) (text : String) (st : ChaseState) :
    ChaseState :=
  if st.ltFlag = false ∧ text = "Long-Term" then
    match ret.get? (i + 1), ret.get? (i + 2) with
    | some "Net", some "Gain" =>
      match ret.get? (i + 5), ret.get? (i + 6) with
      | some p5, some p6 =>
        let lS := delChar '$' p5
        let lyS := delChar '$' p6
        match pyFloat lS with
        | none => st
        | some lv =>
          match st.accNumber with
          | none => st
          | some k =>
            if (lookup st.data k).isSome then
              let d1 := updateRec st.data k
                (fun r => { r with long_net := some lv })
              match pyFloat lyS with
              | none => { st with data := d1 }
              | some lyv =>
                { st with
                    data := updateRec d1 k
                      (fun r => { r with long_net_YTD := some lyv }),
                    ltFlag := true }
            else st
      | _, _ => st
    | _, _ => st
  else st

/-- One iteration of the Chase inner loop `for i, word in enumerate(ret)`:
the account block runs first, the four field blocks only under `page_flag`. -/
def chaseToken (ret : Page) (i : Nat) (st : ChaseState) : ChaseState :=
  match ret.get? i with
  | none => st
  | some text =>
    let st1 := chaseAcctBlock ret i text st
    if st1.pageFlag then
      chaseLongBlock ret i text
        (chaseShortBlock ret i text
          (chaseTotalBlock ret i text
            (chaseDateBlock ret i text st1)))
    else st1

/-- Run the inner loop over a list of token indices. -/
def chaseTokens (ret : Page) : List Nat → ChaseState → ChaseState
  | [], st => st
  | i :: is, st => chaseTokens ret is (chaseToken ret i st)

/-- Process one page: the page-local variables are re-initialised, tokens
scanned in order, and `statement_data` and `date` carried out. -/
def chasePage (d : Data) (date : Option String) (ret : Page) :
    Data × Option String :=
  let fin := chaseTokens ret (List.range ret.length)
    ⟨d, date, none, false, false, false, false⟩
  (fin.data, fin.date)

/-- The page loop `for page in doc`. -/
def chaseDoc : List Page → Data × Option String → Data × Option String
  | [], acc => acc
  | p :: ps, acc => chaseDoc ps (chasePage acc.1 acc.2 p)

/-- The final `for acc in statement_data` loop (source lines 150–152):
every record whose `date` is still `None` receives the document-global
date. -/
def backfill (d : Data) (date : Option String) : Data :=
  d.map (fun kr => (kr.1, if kr.2.date = none then { kr.2 with date := date } else kr.2))

/-- Model of `chase_statement_extract`, from the page-token streams to the returned
`statement_data` dictionary.  The function is total: every fallible Python
operation in its body sits inside a `try/except`, which the embedding
absorbs into the per-block control flow. -/
def chase_statement_extract (pages : List Page) : Data :=
  let fin := chaseDoc pages ([], none)
  backfill fin.1 fin.2

/-! ## `schwab_statement_extract`

`acc_number` and the date machinery (`month, day, year`) are declared before
the page loop and survive across pages; the value-matcher flags are
page-local.  `yearSet` models `year != None`, the guard of the date block.
The account-number block (source lines 214–225) is the one place in either
extractor that is not wrapped in a `try`: `text[0]` on an empty token raises
an uncaught `IndexError`, so the whole extraction is `Option`-valued, with
`none` modelling that exception escaping to the caller. -/

structure SchwabState where
  data : Data
  accNumber : Option String
  yearSet : Bool
  curFlag : Bool
  stFlag : Bool
  deriving DecidableEq, Repr

/-- The digit counter of source lines 215–219: the number of digit
characters of the token. -/
def schwabDigitCount (t : String) : Nat :=
  (t.toList.filter Char.isDigit).length

/-- The trailing-digit counter of source lines 237–243: walk the reversed
day token, counting digits, stopping at `-`, skipping anything else. -/
def schwabDayCount : List Char → Nat
  | [] => 0
  | c :: rest =>
    if c.isDigit then 1 + schwabDayCount rest
    else if c = '-' then 0
    else schwabDayCount rest

/-- The account-number block (source lines 214–225): while `acc_number` is
unset, a token whose first character is a digit and that contains exactly
eight digits supplies the key (its last four characters) and installs the
fresh record; `none` models the uncaught `IndexError` of `text[0]` on an
empty token. -/
def schwabAcctBlock (text : String) (st : SchwabState) : Option SchwabState :=
  if st.accNumber = none then
    match text.toList with
    | [] => none
    | c :: _ =>
      if c.isDigit then
        if schwabDigitCount text = 8 then
          let a := pyLast 4 text
          some { st with accNumber := some a, data := dictSet st.data a emptyRec }
        else some st
      else some st
  else some st

/-- The date block (source lines 229–249): while `year` is unset, a token
that lowers to a month name starts a match; the day token at `i+1` loses its
commas and is cut to its trailing digit run (Python `day[num_counter:]`,
which is the whole string when no trailing digit was counted), the year is
the token at `i+2`, and the date is written directly onto the account's
record — a `KeyError` when no account is known yet resets the match. -/
def schwabDateBlock (ret : Page) (i : Nat) (text : String) (st : SchwabState) :
    SchwabState :=
  if st.yearSet = false then
    match monthsVal (pyLower text) with
    | none => st
    | some mv =>
      match ret.get? (i + 1), ret.get? (i + 2) with
      | some dTok, some yTok =>
        let day0 := delChar ',' dTok
        let k := schwabDayCount day0.toList.reverse
        let day := if k = 0 then day0 else pyLast k day0
        match st.accNumber with
        | some a =>
          if (lookup st.data a).isSome then
            { st with
                data := updateRec st.data a
                  (fun r => { r with date := some (yTok ++ "-" ++ mv ++ "-" ++ day) }),
                yearSet := true }
          else st
        | none => st
      | _, _ => st
  else st

/-- The `text == 'Ending'` block (source lines 252–260): context `Value` at
`i+1`, previous value at `i+3`, current value at `i+2`, with the same
sequential-write shape as the Chase `TOTAL` block. -/
def schwabEndingBlock (ret : Page) (i : Nat) (text : String) (st : SchwabState) :
    SchwabState :=
  if st.curFlag = false ∧ text = "Ending" then
    match ret.get? (i + 1) with
    | some "Value" =>
      match ret.get? (i + 3), ret.get? (i + 2) with
      | some p3, some p2 =>
        let prevS := delChar '$' p3
        let curS := delChar '$' p2
        match pyFloat prevS with
        | none => st
        | some pv =>
          match st.accNumber with
          | none => st
          | some k =>
            if (lookup st.data k).isSome then
              let d1 := updateRec st.data k
                (fun r => { r with prev_period_val := some pv })
              match pyFloat curS with
              | none => { st with data := d1 }
              | some cv =>
                { st with
                    data := updateRec d1 k
                      (fun r => { r with cur_period_val := some cv }),
                    curFlag := true }
            else st
      | _, _ => st
    | _ => st
  else st

/-- The `text == '(ST)'` block (source lines 263–276): context `(LT)` /
`Short-Term` at `i+1`/`i+2`, the four gain values at offsets 13, 21, 16 and
24; the four value strings are fetched before any write, then the four dict
writes run sequentially with `float()` evaluated at each, so a conversion
failure abandons the match with the earlier slots already written. -/
def schwabSTBlock (ret : Page) (i : Nat) (text : String) (st : SchwabState) :
    SchwabState :=
  if st.stFlag = false ∧ text = "(ST)" then
    match ret.get? (i + 1), ret.get? (i + 2) with
    | some "(LT)", some "Short-Term" =>
      match ret.get? (i + 13), ret.get? (i + 21), ret.get? (i + 16), ret.get? (i + 24) with
      | some p13, some p21, some p16, some p24 =>
        let sS := delChar '$' p13
        let syS := delChar '$' p21
        let lS := delChar '$' p16
        let lyS := delChar '$' p24
        match pyFloat sS with
        | none => st
        | some sv =>
          match st.accNumber with
          | none => st
          | some k =>
            if (lookup st.data k).isSome then
              let d1 := updateRec st.data k (fun r => { r with short_net := some sv })
              match pyFloat syS with
              | none => { st with data := d1 }
              | some syv =>
                let d2 := updateRec d1 k (fun r => { r with short_net_YTD := some syv })
                match pyFloat lS with
                | none => { st with data := d2 }
                | some lv =>
                  let d3 := updateRec d2 k (fun r => { r with long_net := some lv })
                  match pyFloat lyS with
                  | none => { st with data := d3 }
                  | some lyv =>
                    { st with
                        data := updateRec d3 k
                          (fun r => { r with long_net_YTD := some lyv }),
                        stFlag := true }
            else st
      | _, _, _, _ => st
    | _, _ => st
  else st

/-- One iteration of the Schwab inner loop; `none` when the account block
raises. -/
def schwabToken (ret : Page) (i : Nat) (st : SchwabState) : Option SchwabState :=
  match ret.get? i with
  | none => some st
  | some text =>
    match schwabAcctBlock text st with
    | none => none
    | some st1 =>
      some (schwabSTBlock ret i text
        (schwabEndingBlock ret i text
          (schwabDateBlock ret i text st1)))

/-- Run the Schwab inner loop over a list of token indices. -/
def schwabTokens (ret : Page) : List Nat → SchwabState → Option SchwabState
  | [], st => some st
  | i :: is, st =>
    match schwabToken ret i st with
    | none => none
    | some st' => schwabTokens ret is st'

/-- Process one Schwab page: the page-local matcher flags are
re-initialised, the cross-page state carried through. -/
def schwabPage (st : SchwabState) (ret : Page) : Option SchwabState :=
  schwabTokens ret (List.range ret.length)
    { st with curFlag := false, stFlag := false }

/-- The Schwab page loop. -/
def schwabDoc : List Page → SchwabState → Option SchwabState
  | [], st => some st
  | p :: ps, st =>
    match schwabPage st p with
    | none => none
    | some st' => schwabDoc ps st'

/-- Model of `schwab_statement_extract`, from the page-token streams to the returned
`statement_data` dictionary; `none` models the one uncaught exception (an
`IndexError` on an empty-text token scanned before the account number is
found). -/
def schwab_statement_extract (pages : List Page) : Option Data :=
  (schwabDoc pages ⟨[], none, false, false, false⟩).map (·.data)

/-! ## Predicates used by the statements -/

/-- The token shape that opens the single Schwab account scope (source
lines 214–219): first character a digit and exactly eight digit characters
in the token. -/
def schwabAcctTok (t : String) : Bool :=
  match t.toList with
  | [] => false
  | c :: _ => c.isDigit && (schwabDigitCount t == 8)

/-- Every key of the dictionary parses under `int()` to a nonzero value. -/
def KeysOk (d : Data) : Prop :=
  ∀ k r, (k, r) ∈ d → ∃ n, pyInt k = some n ∧ n ≠ 0

/-- No record of the dictionary has its `date` slot set. -/
def DatesNone (d : Data) : Prop :=
  ∀ k r, (k, r) ∈ d → r.date = none

/-- The single-account invariant of the Schwab scanner state: no record
before the account number is found, and never more than one record. -/
def SchwabInv (st : SchwabState) : Prop :=
  (st.accNumber = none → st.data = []) ∧ st.data.length ≤ 1

/-- Preservation relation `PrevCurPres d d'`: every account visible in `d` is still visible in
`d'` with the same `prev_period_val` and `cur_period_val` slots. -/
def PrevCurPres (d d' : Data) : Prop :=
  ∀ k r, lookup d k = some r →
    ∃ r', lookup d' k = some r' ∧
      r'.prev_period_val = r.prev_period_val ∧
      r'.cur_period_val = r.cur_period_val

/-! ## Association-list lemmas -/

theorem lookup_cons (k₀ : String) (r₀ : AccountRec) (rest : Data) (k : String) :
    lookup ((k₀, r₀) :: rest) k = if k₀ = k then some r₀ else lookup rest k := rfl

theorem updateRec_cons (k₀ : String) (r₀ : AccountRec) (rest : Data)
    (k : String) (f : AccountRec → AccountRec) :
    updateRec ((k₀, r₀) :: rest) k f =
      (k₀, if k₀ = k then f r₀ else r₀) :: updateRec rest k f := by
  by_cases h : k₀ = k <;> simp [updateRec, h]

theorem lookup_append_some {d : Data} {k : String} {r : AccountRec}
    (h : lookup d k = some r) (l : Data) : lookup (d ++ l) k = some r := by
  induction d with
  | nil => simp [lookup] at h
  | cons kr rest ih =>
    obtain ⟨k', r'⟩ := kr
    rw [List.cons_append, lookup_cons]
    rw [lookup_cons] at h
    by_cases hk : k' = k
    · rw [if_pos hk] at h ⊢; exact h
    · rw [if_neg hk] at h ⊢; exact ih h

theorem lookup_insertIfAbsent_some {d : Data} {k' : String} {r : AccountRec}
    (h : lookup d k' = some r) (k : String) :
    lookup (insertIfAbsent d k) k' = some r := by
  unfold insertIfAbsent
  split
  · exact h
  · exact lookup_append_some h _

theorem lookup_updateRec (d : Data) (k : String) (f : AccountRec → AccountRec)
    (k' : String) :
    lookup (updateRec d k f) k' =
      if k' = k then (lookup d k').map f else lookup d k' := by
  induction d with
  | nil => simp [lookup, updateRec]
  | cons kr rest ih =>
    obtain ⟨k₀, r₀⟩ := kr
    rw [updateRec_cons]
    by_cases hk0 : k₀ = k'
    · subst hk0
      by_cases hk : k₀ = k <;> simp [lookup_cons, hk]
    · by_cases hk : k' = k
      · subst hk
        simp [lookup_cons, hk0, ih]
      · simp [lookup_cons, hk, hk0, ih]

theorem mem_updateRec {d : Data} {k : String} {f : AccountRec → AccountRec}
    {k' : String} {r' : AccountRec} (h : (k', r') ∈ updateRec d k f) :
    ∃ r₀, (k', r₀) ∈ d ∧ (r' = r₀ ∨ r' = f r₀) := by
  unfold updateRec at h
  obtain ⟨⟨k₀, r₀⟩, hmem, heq⟩ := List.mem_map.mp h
  have h1 : k₀ = k' := by
    by_cases hk : k₀ = k <;> simpa [hk] using congrArg Prod.fst heq
  subst h1
  by_cases hk : k₀ = k
  · exact ⟨r₀, hmem, Or.inr (by simpa [hk] using (congrArg Prod.snd heq).symm)⟩
  · exact ⟨r₀, hmem, Or.inl (by simpa [hk] using (congrArg Prod.snd heq).symm)⟩

theorem mem_insertIfAbsent {d : Data} {k k' : String} {r' : AccountRec}
    (h : (k', r') ∈ insertIfAbsent d k) :
    (k', r') ∈ d ∨ (k' = k ∧ r' = emptyRec) := by
  unfold insertIfAbsent at h
  split at h
  · exact Or.inl h
  · rcases List.mem_append.mp h with h1 | h1
    · exact Or.inl h1
    · simp only [List.mem_singleton, Prod.mk.injEq] at h1
      exact Or.inr h1

theorem mem_backfill {d : Data} {date : Option String} {k : String}
    {r : AccountRec} (h : (k, r) ∈ backfill d date) :
    ∃ r₀, (k, r₀) ∈ d ∧
      r = (if r₀.date = none then { r₀ with date := date } else r₀) := by
  unfold backfill at h
  obtain ⟨⟨k₀, r₀⟩, hmem, heq⟩ := List.mem_map.mp h
  have h1 : k₀ = k := congrArg Prod.fst heq
  have h2 := (congrArg Prod.snd heq).symm
  exact ⟨r₀, by simpa [h1] using hmem, by simpa using h2⟩

/-! ## `PrevCurPres` machinery (for the first-match-wins analysis) -/

theorem prevCurPres_refl (d : Data) : PrevCurPres d d :=
  fun _ r h => ⟨r, h, rfl, rfl⟩

theorem prevCurPres_trans {d₁ d₂ d₃ : Data} (h1 : PrevCurPres d₁ d₂)
    (h2 : PrevCurPres d₂ d₃) : PrevCurPres d₁ d₃ := by
  intro k r hl
  obtain ⟨r', hl', hp', hc'⟩ := h1 k r hl
  obtain ⟨r'', hl'', hp'', hc''⟩ := h2 k r' hl'
  exact ⟨r'', hl'', hp''.trans hp', hc''.trans hc'⟩

theorem prevCurPres_insertIfAbsent (d : Data) (k : String) :
    PrevCurPres d (insertIfAbsent d k) :=
  fun _ r h => ⟨r, lookup_insertIfAbsent_some h k, rfl, rfl⟩

theorem prevCurPres_updateRec (d : Data) (k : String)
    (f : AccountRec → AccountRec)
    (hf : ∀ r, (f r).prev_period_val = r.prev_period_val ∧
      (f r).cur_period_val = r.cur_period_val) :
    PrevCurPres d (updateRec d k f) := by
  intro k' r hl
  rw [lookup_updateRec]
  by_cases h : k' = k
  · rw [if_pos h, hl]
    exact ⟨f r, rfl, (hf r).1, (hf r).2⟩
  · rw [if_neg h]
    exact ⟨r, hl, rfl, rfl⟩

/-- The account block never changes `curFlag` and only ever inserts fresh
records, so the prev/cur slots of visible accounts survive it. -/
theorem chaseAcctBlock_curFlag (ret : Page) (i : Nat) (text : String)
    (st : ChaseState) : (chaseAcctBlock ret i text st).curFlag = st.curFlag := by
  unfold chaseAcctBlock
  repeat' (first | split | dsimp only [])

theorem chaseAcctBlock_prevcur (ret : Page) (i : Nat) (text : String)
    (st : ChaseState) :
    PrevCurPres st.data (chaseAcctBlock ret i text st).data := by
  unfold chaseAcctBlock
  repeat' (first | split | dsimp only [])
  all_goals first
    | exact prevCurPres_refl _
    | exact prevCurPres_insertIfAbsent _ _

/-- The date block of the Chase extractor never touches `statement_data`
(the date is only back-filled after the page loop). -/
theorem chaseDateBlock_data (ret : Page) (i : Nat) (text : String)
    (st : ChaseState) : (chaseDateBlock ret i text st).data = st.data := by
  unfold chaseDateBlock
  repeat' (first | split | dsimp only [])

theorem chaseDateBlock_curFlag (ret : Page) (i : Nat) (text : String)
    (st : ChaseState) : (chaseDateBlock ret i text st).curFlag = st.curFlag := by
  unfold chaseDateBlock
  repeat' (first | split | dsimp only [])

/-- Once the page-local flag of the `TOTAL` matcher is set, the whole block
is skipped. -/
theorem chaseTotalBlock_skip (ret : Page) (i : Nat) (text : String)
    {st : ChaseState} (h : st.curFlag = true) :
    chaseTotalBlock ret i text st = st := by
  simp [chaseTotalBlock, h]

theorem chaseShortBlock_curFlag (ret : Page) (i : Nat) (text : String)
    (st : ChaseState) : (chaseShortBlock ret i text st).curFlag = st.curFlag := by
  unfold chaseShortBlock
  repeat' (first | split | dsimp only [])

theorem chaseShortBlock_prevcur (ret : Page) (i : Nat) (text : String)
    (st : ChaseState) :
    PrevCurPres st.data (chaseShortBlock ret i text st).data := by
  unfold chaseShortBlock
  repeat' (first | split | dsimp only [])
  all_goals first
    | exact prevCurPres_refl _
    | (refine prevCurPres_trans (prevCurPres_updateRec _ _ _ ?_)
        (prevCurPres_updateRec _ _ _ ?_) <;> exact fun r => ⟨rfl, rfl⟩)
    | (refine prevCurPres_updateRec _ _ _ ?_
       exact fun r => ⟨rfl, rfl⟩)

theorem chaseLongBlock_curFlag (ret : Page) (i : Nat) (text : String)
    (st : ChaseState) : (chaseLongBlock ret i text st).curFlag = st.curFlag := by
  unfold chaseLongBlock
  repeat' (first | split | dsimp only [])

theorem chaseLongBlock_prevcur (ret : Page) (i : Nat) (text : String)
    (st : ChaseState) :
    PrevCurPres st.data (chaseLongBlock ret i text st).data := by
  unfold chaseLongBlock
  repeat' (first | split | dsimp only [])
  all_goals first
    | exact prevCurPres_refl _
    | (refine prevCurPres_trans (prevCurPres_updateRec _ _ _ ?_)
        (prevCurPres_updateRec _ _ _ ?_) <;> exact fun r => ⟨rfl, rfl⟩)
    | (refine prevCurPres_updateRec _ _ _ ?_
       exact fun r => ⟨rfl, rfl⟩)

/-- One scanner step after the `TOTAL` matcher has fired on the current
page: the flag stays set and every visible account keeps its prev/cur
slots. -/
theorem chaseToken_after_total (ret : Page) (i : Nat) {st : ChaseState}
    (h : st.curFlag = true) :
    (chaseToken ret i st).curFlag = true ∧
      PrevCurPres st.data (chaseToken ret i st).data := by
  unfold chaseToken
  cases hret : ret.get? i with
  | none => exact ⟨h, prevCurPres_refl _⟩
  | some text =>
    have h1 : (chaseAcctBlock ret i text st).curFlag = true :=
      (chaseAcctBlock_curFlag ret i text st).trans h
    by_cases hpf : (chaseAcctBlock ret i text st).pageFlag
    · simp only [hpf, if_true]
      set st1 := chaseAcctBlock ret i text st with hst1
      have h2 : (chaseDateBlock ret i text st1).curFlag = true :=
        (chaseDateBlock_curFlag ret i text st1).trans h1
      rw [chaseTotalBlock_skip ret i text h2]
      set st2 := chaseDateBlock ret i text st1 with hst2
      refine ⟨?_, ?_⟩
      · rw [chaseLongBlock_curFlag, chaseShortBlock_curFlag]
        exact h2
      · refine prevCurPres_trans (chaseAcctBlock_prevcur ret i text st) ?_
        rw [← hst1]
        refine prevCurPres_trans ?_ (prevCurPres_trans
          (chaseShortBlock_prevcur ret i text st2)
          (chaseLongBlock_prevcur ret i text _))
        rw [chaseDateBlock_data]
        exact prevCurPres_refl _
    · simp only [hpf, if_false]
      exact ⟨h1, chaseAcctBlock_prevcur ret i text st⟩

/-- Iterating the scanner over any further tokens of the page after the
`TOTAL` matcher has fired preserves every visible prev/cur slot. -/
theorem chaseTokens_after_total (ret : Page) (js : List Nat) :
    ∀ st : ChaseState, st.curFlag = true →
      (chaseTokens ret js st).curFlag = true ∧
        PrevCurPres st.data (chaseTokens ret js st).data := by
  induction js with
  | nil => exact fun st h => ⟨h, prevCurPres_refl _⟩
  | cons j js ih =>
    intro st h
    obtain ⟨h1, h2⟩ := chaseToken_after_total ret j h
    obtain ⟨h3, h4⟩ := ih (chaseToken ret j st) h1
    exact ⟨h3, prevCurPres_trans h2 h4⟩

/-! ## Preservation of data invariants through the Chase scanner -/

/-- The account block only inserts keys whose `int()` value is nonzero. -/
theorem chaseAcctBlock_pres {P : Data → Prop}
    (hins : ∀ d k n, pyInt k = some n → n ≠ 0 → P d → P (insertIfAbsent d k))
    (ret : Page) (i : Nat) (text : String) (st : ChaseState)
    (hP : P st.data) : P (chaseAcctBlock ret i text st).data := by
  unfold chaseAcctBlock
  repeat' (first | split | dsimp only [])
  all_goals first
    | exact hP
    | exact hins _ _ _ (by assumption) (by assumption) hP

/-- The four value blocks only rewrite records under existing keys, with
update functions that never touch the `date` slot. -/
theorem chaseTotalBlock_pres {P : Data → Prop}
    (hupd : ∀ d k f, (∀ r, (f r).date = r.date) → P d → P (updateRec d k f))
    (ret : Page) (i : Nat) (text : String) (st : ChaseState)
    (hP : P st.data) : P (chaseTotalBlock ret i text st).data := by
  unfold chaseTotalBlock
  repeat' (first | split | dsimp only [])
  all_goals first
    | exact hP
    | (refine hupd _ _ _ ?_ (hupd _ _ _ ?_ hP) <;> exact fun r => rfl)
    | (refine hupd _ _ _ ?_ hP
       exact fun r => rfl)

theorem chaseShortBlock_pres {P : Data → Prop}
    (hupd : ∀ d k f, (∀ r, (f r).date = r.date) → P d → P (updateRec d k f))
    (ret : Page) (i : Nat) (text : String) (st : ChaseState)
    (hP : P st.data) : P (chaseShortBlock ret i text st).data := by
  unfold chaseShortBlock
  repeat' (first | split | dsimp only [])
  all_goals first
    | exact hP
    | (refine hupd _ _ _ ?_ (hupd _ _ _ ?_ hP) <;> exact fun r => rfl)
    | (refine hupd _ _ _ ?_ hP
       exact fun r => rfl)

theorem chaseLongBlock_pres {P : Data → Prop}
    (hupd : ∀ d k f, (∀ r, (f r).date = r.date) → P d → P (updateRec d k f))
    (ret : Page) (i : Nat) (text : String) (st : ChaseState)
    (hP : P st.data) : P (chaseLongBlock ret i text st).data := by
  unfold chaseLongBlock
  repeat' (first | split | dsimp only [])
  all_goals first
    | exact hP
    | (refine hupd _ _ _ ?_ (hupd _ _ _ ?_ hP) <;> exact fun r => rfl)
    | (refine hupd _ _ _ ?_ hP
       exact fun r => rfl)

theorem chaseToken_pres {P : Data → Prop}
    (hins : ∀ d k n, pyInt k = some n → n ≠ 0 → P d → P (insertIfAbsent d k))
    (hupd : ∀ d k f, (∀ r, (f r).date = r.date) → P d → P (updateRec d k f))
    (ret : Page) (i : Nat) (st : ChaseState)
    (hP : P st.data) : P (chaseToken ret i st).data := by
  unfold chaseToken
  cases hret : ret.get? i with
  | none => exact hP
  | some text =>
    have h1 := chaseAcctBlock_pres hins ret i text st hP
    by_cases hpf : (chaseAcctBlock ret i text st).pageFlag
    · simp only [hpf, if_true]
      have h2 : P (chaseDateBlock ret i text (chaseAcctBlock ret i text st)).data := by
        rw [chaseDateBlock_data]; exact h1
      exact chaseLongBlock_pres hupd ret i text _
        (chaseShortBlock_pres hupd ret i text _
          (chaseTotalBlock_pres hupd ret i text _ h2))
    · simp only [hpf, if_false]
      exact h1

theorem chaseTokens_pres {P : Data → Prop}
    (hins : ∀ d k n, pyInt k = some n → n ≠ 0 → P d → P (insertIfAbsent d k))
    (hupd : ∀ d k f, (∀ r, (f r).date = r.date) → P d → P (updateRec d k f))
    (ret : Page) (js : List Nat) :
    ∀ st : ChaseState, P st.data → P (chaseTokens ret js st).data := by
  induction js with
  | nil => exact fun st h => h
  | cons j js ih =>
    exact fun st h => ih _ (chaseToken_pres hins hupd ret j st h)

theorem chaseDoc_pres {P : Data → Prop}
    (hins : ∀ d k n, pyInt k = some n → n ≠ 0 → P d → P (insertIfAbsent d k))
    (hupd : ∀ d k f, (∀ r, (f r).date = r.date) → P d → P (updateRec d k f))
    (pages : List Page) :
    ∀ acc : Data × Option String, P acc.1 → P (chaseDoc pages acc).1 := by
  induction pages with
  | nil => exact fun acc h => h
  | cons p ps ih =>
    intro acc h
    exact ih _ (chaseTokens_pres hins hupd p (List.range p.length) _ h)

/-- Stability: `KeysOk` is a Chase-scanner invariant. -/
theorem keysOk_ins (d : Data) (k : String) (n : Int) (hn : pyInt k = some n)
    (hne : n ≠ 0) (h : KeysOk d) : KeysOk (insertIfAbsent d k) := by
  intro k' r' hmem
  rcases mem_insertIfAbsent hmem with hmem' | ⟨hk, _⟩
  · exact h _ _ hmem'
  · exact ⟨n, hk ▸ hn, hne⟩

theorem keysOk_upd (d : Data) (k : String) (f : AccountRec → AccountRec)
    (h : KeysOk d) : KeysOk (updateRec d k f) := by
  intro k' r' hmem
  obtain ⟨r₀, hmem', _⟩ := mem_updateRec hmem
  exact h _ _ hmem'

theorem keysOk_backfill (d : Data) (date : Option String) (h : KeysOk d) :
    KeysOk (backfill d date) := by
  intro k r hmem
  obtain ⟨r₀, hmem', _⟩ := mem_backfill hmem
  exact h _ _ hmem'

/-- Stability: `DatesNone` is an invariant of the page scan (only `backfill` writes
record dates in the Chase extractor). -/
theorem datesNone_ins (d : Data) (k : String) (h : DatesNone d) :
    DatesNone (insertIfAbsent d k) := by
  intro k' r' hmem
  rcases mem_insertIfAbsent hmem with hmem' | ⟨_, hr⟩
  · exact h _ _ hmem'
  · rw [hr]; rfl

theorem datesNone_upd (d : Data) (k : String) (f : AccountRec → AccountRec)
    (hf : ∀ r, (f r).date = r.date) (h : DatesNone d) :
    DatesNone (updateRec d k f) := by
  intro k' r' hmem
  obtain ⟨r₀, hmem', hr⟩ := mem_updateRec hmem
  rcases hr with hr | hr
  · rw [hr]; exact h _ _ hmem'
  · rw [hr, hf]; exact h _ _ hmem'

/-- Every key of the Chase scan result parses to a nonzero `int()` value. -/
theorem chase_scan_keysOk (pages : List Page) :
    KeysOk (chaseDoc pages ([], none)).1 :=
  chaseDoc_pres keysOk_ins (fun d k f _ => keysOk_upd d k f) pages ([], none)
    (fun k r h => absurd h (List.not_mem_nil (k, r)))

/-- No record date is set during the Chase page scan. -/
theorem chase_scan_datesNone (pages : List Page) :
    DatesNone (chaseDoc pages ([], none)).1 :=
  chaseDoc_pres (fun d k _ _ _ => datesNone_ins d k) datesNone_upd pages ([], none)
    (fun k r h => absurd h (List.not_mem_nil (k, r)))

/-- After `backfill`, every record of the Chase result carries exactly the
document-global date. -/
theorem chase_date_uniform (pages : List Page) (k : String) (r : AccountRec)
    (hmem : (k, r) ∈ chase_statement_extract pages) :
    r.date = (chaseDoc pages ([], none)).2 := by
  obtain ⟨r₀, hmem', hr⟩ := mem_backfill hmem
  have hd : r₀.date = none := chase_scan_datesNone pages k r₀ hmem'
  rw [hr, if_pos hd]

/-! ## Streams without anchors, and totality of the Schwab scan -/

theorem toList_nil_iff (s : String) : s.toList = [] ↔ s = "" := by
  constructor
  · intro h
    cases s
    exact congrArg String.mk h
  · intro h
    rw [h]
    rfl

/-- A token that does not contain `Acct` leaves the scanner state of a
page whose flag is still unset completely unchanged. -/
theorem chaseToken_no_acct (ret : Page) (i : Nat) (st : ChaseState)
    (hpf : st.pageFlag = false)
    (hno : ∀ t ∈ ret, hasSubstr "Acct".toList t.toList = false) :
    chaseToken ret i st = st := by
  unfold chaseToken
  cases hret : ret.get? i with
  | none => rfl
  | some text =>
    have h1 : hasSubstr "Acct".toList text.toList = false :=
      hno _ (List.get?_mem hret)
    have h2 : chaseAcctBlock ret i text st = st := by
      unfold chaseAcctBlock
      rw [h1]
      simp
    dsimp only []
    rw [h2]
    simp [hpf]

theorem chaseTokens_no_acct (ret : Page) (js : List Nat)
    (hno : ∀ t ∈ ret, hasSubstr "Acct".toList t.toList = false) :
    ∀ st : ChaseState, st.pageFlag = false → chaseTokens ret js st = st := by
  induction js with
  | nil => exact fun st _ => rfl
  | cons j js ih =>
    intro st hpf
    unfold chaseTokens
    rw [chaseToken_no_acct ret j st hpf hno]
    exact ih st hpf

theorem chaseDoc_no_acct (pages : List Page)
    (hno : ∀ p ∈ pages, ∀ t ∈ p, hasSubstr "Acct".toList t.toList = false) :
    ∀ acc : Data × Option String, chaseDoc pages acc = acc := by
  induction pages with
  | nil => exact fun acc => rfl
  | cons p ps ih =>
    intro acc
    unfold chaseDoc chasePage
    rw [chaseTokens_no_acct p (List.range p.length)
      (fun t ht => hno p (List.mem_cons_self p ps) t ht) _ rfl]
    exact ih (fun q hq t ht => hno q (List.mem_cons_of_mem p hq) t ht) acc

/-- The Schwab account block is the only uncaught-exception site, and it
only raises on an empty token. -/
theorem schwabAcctBlock_some (text : String) (st : SchwabState)
    (h : text ≠ "") : ∃ st', schwabAcctBlock text st = some st' := by
  unfold schwabAcctBlock
  repeat' (first | split | dsimp only [])
  all_goals first
    | exact ⟨_, rfl⟩
    | (exfalso
       exact h ((toList_nil_iff text).mp (by assumption)))

theorem schwabToken_some (ret : Page) (i : Nat) (st : SchwabState)
    (hne : ∀ t ∈ ret, t ≠ "") : ∃ st', schwabToken ret i st = some st' := by
  unfold schwabToken
  cases hret : ret.get? i with
  | none => exact ⟨st, rfl⟩
  | some text =>
    obtain ⟨st', hst'⟩ := schwabAcctBlock_some text st (hne _ (List.get?_mem hret))
    dsimp only []
    rw [hst']
    exact ⟨_, rfl⟩

theorem schwabTokens_some (ret : Page) (js : List Nat)
    (hne : ∀ t ∈ ret, t ≠ "") :
    ∀ st : SchwabState, ∃ st', schwabTokens ret js st = some st' := by
  induction js with
  | nil => exact fun st => ⟨st, rfl⟩
  | cons j js ih =>
    intro st
    obtain ⟨st1, h1⟩ := schwabToken_some ret j st hne
    unfold schwabTokens
    rw [h1]
    exact ih st1

theorem schwabDoc_some (pages : List Page)
    (hne : ∀ p ∈ pages, ∀ t ∈ p, t ≠ "") :
    ∀ st : SchwabState, ∃ st', schwabDoc pages st = some st' := by
  induction pages with
  | nil => exact fun st => ⟨st, rfl⟩
  | cons p ps ih =>
    intro st
    obtain ⟨st1, h1⟩ := schwabTokens_some p (List.range p.length)
      (fun t ht => hne p (List.mem_cons_self p ps) t ht)
      { st with curFlag := false, stFlag := false }
    unfold schwabDoc schwabPage
    rw [h1]
    exact ih (fun q hq t ht => hne q (List.mem_cons_of_mem p hq) t ht) st1

/-- With no account number resolved yet, the three `try`-guarded Schwab
blocks are no-ops (`statement_data[None]` raises a caught `KeyError`). -/
theorem schwabDateBlock_noacc (ret : Page) (i : Nat) (text : String)
    (st : SchwabState) (h : st.accNumber = none) :
    schwabDateBlock ret i text st = st := by
  unfold schwabDateBlock
  simp only [h]
  repeat' (first | split | dsimp only [])

theorem schwabEndingBlock_noacc (ret : Page) (i : Nat) (text : String)
    (st : SchwabState) (h : st.accNumber = none) :
    schwabEndingBlock ret i text st = st := by
  unfold schwabEndingBlock
  simp only [h]
  repeat' (first | split | dsimp only [])

theorem schwabSTBlock_noacc (ret : Page) (i : Nat) (text : String)
    (st : SchwabState) (h : st.accNumber = none) :
    schwabSTBlock ret i text st = st := by
  unfold schwabSTBlock
  simp only [h]
  repeat' (first | split | dsimp only [])

/-- A nonempty token that is not an account-number token leaves the whole
Schwab state unchanged when no account is known yet. -/
theorem schwabToken_nomatch (ret : Page) (i : Nat) (st : SchwabState)
    (hacc : st.accNumber = none)
    (hne : ∀ t ∈ ret, t ≠ "" ∧ schwabAcctTok t = false) :
    schwabToken ret i st = some st := by
  unfold schwabToken
  cases hret : ret.get? i with
  | none => rfl
  | some text =>
    obtain ⟨h1, h2⟩ := hne _ (List.get?_mem hret)
    have hblk : schwabAcctBlock text st = some st := by
      unfold schwabAcctBlock
      rw [if_pos hacc]
      cases htl : text.toList with
      | nil => exact absurd ((toList_nil_iff text).mp htl) h1
      | cons c cs =>
        unfold schwabAcctTok at h2
        rw [htl] at h2
        by_cases hd : c.isDigit
        · simp only [hd, Bool.true_and] at h2
          have hcnt : ¬ schwabDigitCount text = 8 := by
            intro hc
            rw [hc] at h2
            simp at h2
          simp [hd, hcnt]
        · simp [hd]
    dsimp only []
    rw [hblk]
    dsimp only []
    rw [schwabDateBlock_noacc ret i text st hacc,
      schwabEndingBlock_noacc ret i text st hacc,
      schwabSTBlock_noacc ret i text st hacc]

theorem schwabTokens_nomatch (ret : Page) (js : List Nat)
    (hne : ∀ t ∈ ret, t ≠ "" ∧ schwabAcctTok t = false)
    (st : SchwabState) (hacc : st.accNumber = none) :
    schwabTokens ret js st = some st := by
  induction js with
  | nil => rfl
  | cons j js ih =>
    unfold schwabTokens
    rw [schwabToken_nomatch ret j st hacc hne]
    exact ih

theorem schwabDoc_nomatch (pages : List Page)
    (hne : ∀ p ∈ pages, ∀ t ∈ p, t ≠ "" ∧ schwabAcctTok t = false) :
    ∀ st : SchwabState, st.accNumber = none →
      st.curFlag = false → st.stFlag = false →
      schwabDoc pages st = some st := by
  induction pages with
  | nil => exact fun st _ _ _ => rfl
  | cons p ps ih =>
    intro st hacc hcur hst
    unfold schwabDoc schwabPage
    have hresume : ({ st with curFlag := false, stFlag := false } : SchwabState) = st := by
      cases st
      simp_all
    rw [hresume, schwabTokens_nomatch p (List.range p.length)
      (fun t ht => hne p (List.mem_cons_self p ps) t ht) st hacc]
    exact ih (fun q hq t ht => hne q (List.mem_cons_of_mem p hq) t ht) st hacc hcur hst

/-! ## The single-account invariant of the Schwab scanner -/

theorem updateRec_length (d : Data) (k : String) (f : AccountRec → AccountRec) :
    (updateRec d k f).length = d.length :=
  List.length_map d _

theorem schwabAcctBlock_inv {text : String} {st : SchwabState}
    (h : SchwabInv st) :
    ∀ st', schwabAcctBlock text st = some st' → SchwabInv st' := by
  unfold schwabAcctBlock
  repeat' (first | split | dsimp only [])
  all_goals intro st' hst'
  all_goals cases hst'
  all_goals first
    | exact h
    | (have hd : st.data = [] := h.1 (by assumption)
       refine ⟨fun hacc => by simp at hacc, ?_⟩
       simp [hd, dictSet, lookup])

theorem schwabDateBlock_inv {ret : Page} {i : Nat} {text : String}
    {st : SchwabState} (h : SchwabInv st) :
    SchwabInv (schwabDateBlock ret i text st) := by
  unfold schwabDateBlock
  repeat' (first | split | dsimp only [])
  all_goals first
    | exact h
    | (constructor
       · intro hacc
         simp_all
       · simpa [updateRec_length] using h.2)

theorem schwabEndingBlock_inv {ret : Page} {i : Nat} {text : String}
    {st : SchwabState} (h : SchwabInv st) :
    SchwabInv (schwabEndingBlock ret i text st) := by
  unfold schwabEndingBlock
  repeat' (first | split | dsimp only [])
  all_goals first
    | exact h
    | (constructor
       · intro hacc
         simp_all
       · simpa [updateRec_length] using h.2)

theorem schwabSTBlock_inv {ret : Page} {i : Nat} {text : String}
    {st : SchwabState} (h : SchwabInv st) :
    SchwabInv (schwabSTBlock ret i text st) := by
  unfold schwabSTBlock
  repeat' (first | split | dsimp only [])
  all_goals first
    | exact h
    | (constructor
       · intro hacc
         simp_all
       · simpa [updateRec_length] using h.2)

theorem schwabToken_inv {ret : Page} {i : Nat} {st : SchwabState}
    (h : SchwabInv st) :
    ∀ st', schwabToken ret i st = some st' → SchwabInv st' := by
  unfold schwabToken
  cases hret : ret.get? i with
  | none =>
    intro st' hst'
    cases hst'
    exact h
  | some text =>
    dsimp only []
    cases hblk : schwabAcctBlock text st with
    | none =>
      intro st' hst'
      cases hst'
    | some st1 =>
      intro st' hst'
      cases hst'
      exact schwabSTBlock_inv (schwabEndingBlock_inv
        (schwabDateBlock_inv (schwabAcctBlock_inv h st1 hblk)))

theorem schwabTokens_inv (ret : Page) (js : List Nat) :
    ∀ st : SchwabState, SchwabInv st →
      ∀ st', schwabTokens ret js st = some st' → SchwabInv st' := by
  induction js with
  | nil =>
    intro st h st' hst'
    cases hst'
    exact h
  | cons j js ih =>
    intro st h st' hst'
    unfold schwabTokens at hst'
    cases hblk : schwabToken ret j st with
    | none => rw [hblk] at hst'; cases hst'
    | some st1 =>
      rw [hblk] at hst'
      exact ih st1 (schwabToken_inv h st1 hblk) st' hst'

theorem schwabDoc_inv (pages : List Page) :
    ∀ st : SchwabState, SchwabInv st →
      ∀ st', schwabDoc pages st = some st' → SchwabInv st' := by
  induction pages with
  | nil =>
    intro st h st' hst'
    cases hst'
    exact h
  | cons p ps ih =>
    intro st h st' hst'
    unfold schwabDoc schwabPage at hst'
    cases hpg : schwabTokens p (List.range p.length)
        { st with curFlag := false, stFlag := false } with
    | none => rw [hpg] at hst'; cases hst'
    | some st1 =>
      rw [hpg] at hst'
      have h0 : SchwabInv { st with curFlag := false, stFlag := false } := h
      exact ih st1 (schwabTokens_inv p (List.range p.length) _ h0 st1 hpg) st' hst'

/-! ## All-zero strings under `int()` -/

theorem foldl_digits_zeros (l : List Char) (h : ∀ c ∈ l, c = '0') :
    l.foldl (fun a c => a * 10 + (c.toNat - '0'.toNat)) 0 = 0 := by
  induction l with
  | nil => rfl
  | cons c cs ih =>
    have hc : c = '0' := h c (List.mem_cons_self c cs)
    rw [List.foldl_cons, hc]
    exact ih (fun c' hc' => h c' (List.mem_cons_of_mem c hc'))

theorem digitsToNat_zeros (l : List Char) (h : ∀ c ∈ l, c = '0') :
    digitsToNat l = 0 :=
  foldl_digits_zeros l h

theorem pyStrip_all_zero (l : List Char) (h : ∀ c ∈ l, c = '0') :
    pyStrip l = l := by
  unfold pyStrip
  have h1 : l.dropWhile Char.isWhitespace = l := by
    cases l with
    | nil => rfl
    | cons c cs =>
      rw [List.dropWhile_cons]
      have hc : c = '0' := h c (List.mem_cons_self c cs)
      rw [hc]
      simp
  rw [h1]
  have h2 : l.reverse.dropWhile Char.isWhitespace = l.reverse := by
    cases hrev : l.reverse with
    | nil => rfl
    | cons c cs =>
      have hc : c ∈ l := by
        rw [← List.mem_reverse, hrev]
        exact List.mem_cons_self c cs
      rw [List.dropWhile_cons, h c hc]
      simp
  rw [h2, List.reverse_reverse]

/-- A nonempty all-zero-digit string parses under `int()` to `0`. -/
theorem pyInt_all_zero (s : String) (hne : s.toList ≠ [])
    (h : ∀ c ∈ s.toList, c = '0') : pyInt s = some 0 := by
  unfold pyInt
  rw [pyStrip_all_zero s.toList h]
  have hmag : pyIntMag s.toList = some 0 := by
    unfold pyIntMag
    rw [if_pos]
    · rw [digitsToNat_zeros s.toList h]
      rfl
    · refine ⟨hne, ?_⟩
      rw [List.all_eq_true]
      intro c hc
      rw [h c hc]
      decide
  split
  · next heq =>
    exfalso
    have : '+' ∈ s.toList := by
      rw [heq]
      exact List.mem_cons_self _ _
    have h0 := h _ this
    simp at h0
  · next heq =>
    exfalso
    have : '-' ∈ s.toList := by
      rw [heq]
      exact List.mem_cons_self _ _
    have h0 := h _ this
    simp at h0
  · exact hmag

/-! ## Claim C1 -/

/-- C1, counterexample.  The claim says a slot, once successfully set, is
never overwritten by a later anchor match in the same call.  In the code
the first-match-wins guard is the page-local variable `cur_period_value`,
re-initialised on every page: on this two-page document the
`prev_period_val`/`cur_period_val` slots of account `"1234"` are set to
100/150 by the page-1 match and then overwritten to 300/400 by the page-2
match of the same call. -/
theorem claim_C1_counterexample :
    chase_statement_extract
        [["Acct", "#", "1234)", "TOTAL", "ACCOUNT", "VALUE", "$100.00", "$150.00"]] =
      [("1234", ⟨none, some 100, some 150, none, none, none, none⟩)] ∧
    chase_statement_extract
        [["Acct", "#", "1234)", "TOTAL", "ACCOUNT", "VALUE", "$100.00", "$150.00"],
         ["Acct", "#", "1234)", "TOTAL", "ACCOUNT", "VALUE", "$300.00", "$400.00"]] =
      [("1234", ⟨none, some 300, some 400, none, none, none, none⟩)] := by
  constructor <;> decide

/-- C1, amended.  First-match-wins holds only within one page: after the
`TOTAL ACCOUNT VALUE` matcher has fully succeeded on the current page
(page-local flag set), scanning any further tokens of that page never
changes the `prev_period_val`/`cur_period_val` slots of any visible
account; the flag is reset at each page boundary, so a match on a later
page may overwrite the slots (and a slot still Unset stays eligible
there). -/
theorem claim_C1_amended (ret : Page) (js : List Nat) (st : ChaseState)
    (hflag : st.curFlag = true) (k : String) (r : AccountRec)
    (hl : lookup st.data k = some r) :
    ∃ r', lookup (chaseTokens ret js st).data k = some r' ∧
      r'.prev_period_val = r.prev_period_val ∧
      r'.cur_period_val = r.cur_period_val :=
  (chaseTokens_after_total ret js st hflag).2 k r hl

/-- C1, witness for the amended theorem: scanning a whole further
account-and-`TOTAL`-context page after the flag is set leaves the
100/150 slots of `"1234"` intact. -/
theorem claim_C1_amended_witness :
    (⟨[("1234", ⟨none, some 100, some 150, none, none, none, none⟩)], none,
        some "1234", true, true, false, false⟩ : ChaseState).curFlag = true ∧
    lookup [("1234", (⟨none, some 100, some 150, none, none, none, none⟩ : AccountRec))]
        "1234" = some ⟨none, some 100, some 150, none, none, none, none⟩ ∧
    ∃ r', lookup (chaseTokens
        ["Acct", "#", "9999)", "TOTAL", "ACCOUNT", "VALUE", "$7.00", "$8.00"]
        (List.range 8)
        ⟨[("1234", ⟨none, some 100, some 150, none, none, none, none⟩)], none,
          some "1234", true, true, false, false⟩).data "1234" = some r' ∧
      r'.prev_period_val = some 100 ∧ r'.cur_period_val = some 150 :=
  ⟨rfl, by decide,
    claim_C1_amended
      ["Acct", "#", "9999)", "TOTAL", "ACCOUNT", "VALUE", "$7.00", "$8.00"]
      (List.range 8)
      ⟨[("1234", ⟨none, some 100, some 150, none, none, none, none⟩)], none,
        some "1234", true, true, false, false⟩
      rfl "1234" ⟨none, some 100, some 150, none, none, none, none⟩ (by decide)⟩

/-! ## Claim C2 -/

/-- C2, counterexample.  Two scope anchors on one page, each followed in
its own scope by a complete, distinct `TOTAL ACCOUNT VALUE` context: the
claim says neither account's values are dropped, but the page-local
matcher flag is already set when the second scope's context is reached, so
the record of `"2222"` stays entirely Unset — its values are dropped. -/
theorem claim_C2_counterexample :
    chase_statement_extract
        [["Acct", "#", "1111)", "TOTAL", "ACCOUNT", "VALUE", "$1.00", "$2.00",
          "Acct", "#", "2222)", "TOTAL", "ACCOUNT", "VALUE", "$3.00", "$4.00"]] =
      [("1111", ⟨none, some 1, some 2, none, none, none, none⟩),
       ("2222", ⟨none, none, none, none, none, none, none⟩)] := by
  decide

/-- C2, amended.  On a multi-account page the values that are extracted
are attributed to the account whose scope contains their context — never
cross-attributed — but each field matcher fires at most once per page, so
the two scopes' contexts must target distinct field matchers for both to
be extracted: here `"1111"`'s `TOTAL ACCOUNT VALUE` and `"2222"`'s
`Short-Term Net Gain` contexts both land on their own records. -/
theorem claim_C2_amended :
    chase_statement_extract
        [["Acct", "#", "1111)", "TOTAL", "ACCOUNT", "VALUE", "$1.00", "$2.00",
          "Acct", "#", "2222)", "Short-Term", "Net", "Gain", "x", "x",
          "$3.00", "$4.00"]] =
      [("1111", ⟨none, some 1, some 2, none, none, none, none⟩),
       ("2222", ⟨none, none, none, some 3, some 4, none, none⟩)] := by
  decide

/-! ## Claim C3 -/

/-- C3, counterexample.  The claim says every token stream — including
empty-text tokens — is absorbed without an exception.  In
`schwab_statement_extract` the account-number test `text[0].isdigit()`
sits outside every `try`: an empty-text token scanned before the account
number is found raises an uncaught `IndexError` (modelled as `none`). -/
theorem claim_C3_counterexample :
    schwab_statement_extract [[""]] = none := by
  decide

/-- C3, amended.  `chase_statement_extract` absorbs every token- and
field-level mismatch (a stream with no `Acct` anchor yields the empty
mapping, not an error); `schwab_statement_extract` does so provided every
token scanned before its account number resolves is nonempty, and a
nonempty stream matching no Schwab account token yields `some []`.  Only
the empty-token `IndexError` above escapes. -/
theorem claim_C3_amended (pages : List Page) :
    ((∀ p ∈ pages, ∀ t ∈ p, hasSubstr "Acct".toList t.toList = false) →
      chase_statement_extract pages = []) ∧
    ((∀ p ∈ pages, ∀ t ∈ p, t ≠ "") →
      (schwab_statement_extract pages).isSome = true) ∧
    ((∀ p ∈ pages, ∀ t ∈ p, t ≠ "" ∧ schwabAcctTok t = false) →
      schwab_statement_extract pages = some []) := by
  refine ⟨?_, ?_, ?_⟩
  · intro hno
    show backfill (chaseDoc pages ([], none)).1 (chaseDoc pages ([], none)).2 = []
    rw [chaseDoc_no_acct pages hno ([], none)]
    rfl
  · intro hne
    obtain ⟨st', h⟩ := schwabDoc_some pages hne ⟨[], none, false, false, false⟩
    unfold schwab_statement_extract
    rw [h]
    rfl
  · intro hnm
    unfold schwab_statement_extract
    rw [schwabDoc_nomatch pages hnm ⟨[], none, false, false, false⟩ rfl rfl rfl]
    rfl

/-- C3, witness: a concrete anchor-free stream yields the empty mapping
from both extractors and no error from the Schwab one. -/
theorem claim_C3_amended_witness :
    chase_statement_extract [["hello", "world"], ["N/A"]] = [] ∧
    (schwab_statement_extract [["hello", "world"], ["N/A"]]).isSome = true ∧
    schwab_statement_extract [["hello", "world"], ["N/A"]] = some [] :=
  ⟨(claim_C3_amended [["hello", "world"], ["N/A"]]).1 (by decide),
   (claim_C3_amended [["hello", "world"], ["N/A"]]).2.1 (by decide),
   (claim_C3_amended [["hello", "world"], ["N/A"]]).2.2 (by decide)⟩

/-! ## Claim C4 -/

/-- C4, counterexample.  The claim says `"$12,345.67"` parses to the same
double as `"12345.67"`.  The code only strips `$` (never thousands
separators), so `float("12,345.67")` raises and the slot stays Unset,
while the plain form sets it to 12345.67: the two inputs do not yield the
same result. -/
theorem claim_C4_counterexample :
    chase_statement_extract
        [["Acct", "#", "1234)", "TOTAL", "ACCOUNT", "VALUE", "$12,345.67", "$150.00"]] =
      [("1234", ⟨none, none, none, none, none, none, none⟩)] ∧
    chase_statement_extract
        [["Acct", "#", "1234)", "TOTAL", "ACCOUNT", "VALUE", "12345.67", "$150.00"]] =
      [("1234", ⟨none, some (mkRat 1234567 100), some 150, none, none, none, none⟩)] := by
  constructor <;> decide

/-- C4, amended.  Only the currency symbol `$` is normalised away:
`"$100.00"` and `"100.00"` parse to the same value 100.0, while a value
token with a thousands separator, like a non-numeric token such as
`"N/A"`, fails the conversion and leaves the slot Unset without
raising. -/
theorem claim_C4_amended :
    chase_statement_extract
        [["Acct", "#", "1234)", "TOTAL", "ACCOUNT", "VALUE", "$100.00", "$150.00"]] =
      chase_statement_extract
        [["Acct", "#", "1234)", "TOTAL", "ACCOUNT", "VALUE", "100.00", "$150.00"]] ∧
    chase_statement_extract
        [["Acct", "#", "1234)", "TOTAL", "ACCOUNT", "VALUE", "100.00", "$150.00"]] =
      [("1234", ⟨none, some 100, some 150, none, none, none, none⟩)] ∧
    chase_statement_extract
        [["Acct", "#", "1234)", "TOTAL", "ACCOUNT", "VALUE", "N/A", "$150.00"]] =
      [("1234", ⟨none, none, none, none, none, none, none⟩)] ∧
    chase_statement_extract
        [["Acct", "#", "1234)", "TOTAL", "ACCOUNT", "VALUE", "$12,345.67", "$150.00"]] =
      [("1234", ⟨none, none, none, none, none, none, none⟩)] := by
  refine ⟨by decide, by decide, by decide, by decide⟩

/-! ## Claim C5 -/

/-- C5, counterexample.  The claim says a match that fails during value
conversion modifies no slot.  In the code the two dict writes are
sequential with `float()` evaluated at each: here the first value
`"$100.00"` is written to `prev_period_val` before `float("N/A")` raises,
so the failed match leaves a partial write behind. -/
theorem claim_C5_counterexample :
    chase_statement_extract
        [["Acct", "#", "1234)", "TOTAL", "ACCOUNT", "VALUE", "$100.00", "N/A"]] =
      [("1234", ⟨none, some 100, none, none, none, none, none⟩)] := by
  decide

/-- C5, amended.  Abandonment is atomic only when the FIRST value
conversion of the match fails: if the `TOTAL ACCOUNT VALUE` context is
confirmed but the first value token does not parse, the block leaves the
scanner state — in particular every account record — exactly unchanged (a
failure on a later value token of the match keeps the earlier writes, as
the counterexample shows); no exception propagates either way. -/
theorem claim_C5_amended (ret : Page) (i : Nat) (text : String)
    (st : ChaseState) (hflag : st.curFlag = false) (htext : text = "TOTAL")
    (h1 : ret.get? (i + 1) = some "ACCOUNT")
    (h2 : ret.get? (i + 2) = some "VALUE") (p3 : String)
    (h3 : ret.get? (i + 3) = some p3)
    (hfail : pyFloat (delChar '$' p3) = none) :
    chaseTotalBlock ret i text st = st := by
  unfold chaseTotalBlock
  split
  · split
    · split
      · next p3' p4' heq3 heq4 =>
          rw [h3] at heq3
          cases heq3
          dsimp only []
          rw [hfail]
      · rfl
    · rfl
  · rfl

/-- C5, witness for the amended theorem at a concrete confirmed context
whose first value token is `"N/A"`. -/
theorem claim_C5_amended_witness :
    pyFloat (delChar '$' "N/A") = none ∧
    chaseTotalBlock ["TOTAL", "ACCOUNT", "VALUE", "N/A", "$5.00"] 0 "TOTAL"
        ⟨[("1234", ⟨none, none, none, none, none, none, none⟩)], none,
          some "1234", true, false, false, false⟩ =
      ⟨[("1234", ⟨none, none, none, none, none, none, none⟩)], none,
        some "1234", true, false, false, false⟩ :=
  ⟨by decide,
    claim_C5_amended ["TOTAL", "ACCOUNT", "VALUE", "N/A", "$5.00"] 0 "TOTAL"
      ⟨[("1234", ⟨none, none, none, none, none, none, none⟩)], none,
        some "1234", true, false, false, false⟩
      rfl rfl (by decide) (by decide) "N/A" (by decide) (by decide)⟩

/-! ## Claim C6 -/

/-- C6, confirmed.  The statement date is document-global: if the scan of
all pages resolves the date to `dte` (first resolvable on whatever page),
then after the final back-fill loop every account record of the result —
wherever its page was — carries `statement_date = dte`. -/
theorem claim_C6 (pages : List Page) (dte : String)
    (hdate : (chaseDoc pages ([], none)).2 = some dte) (k : String)
    (r : AccountRec) (hmem : (k, r) ∈ chase_statement_extract pages) :
    r.date = some dte := by
  rw [chase_date_uniform pages k r hmem, hdate]

/-- C6, witness: the spec's five-page scenario — the date context appears
only on page 3, accounts are discovered on pages 1, 2, 4 and 5, and the
page-1 record ends up carrying the page-3 date. -/
theorem claim_C6_witness :
    (chaseDoc
        [["Acct", "#", "1111)"], ["Acct", "#", "2222)"],
         ["Acct", "#", "9999)", "Statement", "Period:", "August",
          "f1", "f2", "f3", "31,", "2024"],
         ["Acct", "#", "4444)"], ["Acct", "#", "5555)"]]
        ([], none)).2 = some "2024-08-31" ∧
    ("1111", (⟨some "2024-08-31", none, none, none, none, none, none⟩ : AccountRec)) ∈
      chase_statement_extract
        [["Acct", "#", "1111)"], ["Acct", "#", "2222)"],
         ["Acct", "#", "9999)", "Statement", "Period:", "August",
          "f1", "f2", "f3", "31,", "2024"],
         ["Acct", "#", "4444)"], ["Acct", "#", "5555)"]] ∧
    (⟨some "2024-08-31", none, none, none, none, none, none⟩ : AccountRec).date =
      some "2024-08-31" :=
  ⟨by decide, by decide,
    claim_C6
      [["Acct", "#", "1111)"], ["Acct", "#", "2222)"],
       ["Acct", "#", "9999)", "Statement", "Period:", "August",
        "f1", "f2", "f3", "31,", "2024"],
       ["Acct", "#", "4444)"], ["Acct", "#", "5555)"]]
      "2024-08-31" (by decide) "1111"
      ⟨some "2024-08-31", none, none, none, none, none, none⟩ (by decide)⟩

/-! ## Claim C7 -/

/-- C7, confirmed.  The spec's concrete Chase scenario: an `Acct` anchor
whose account token carries the last four digits `1234`, followed by the
`TOTAL ACCOUNT VALUE` context with `$100.00` and `$150.00` at the fixed
value offsets, yields the record `"1234"` with
`prior_period_value = 100.00` and `current_period_value = 150.00`. -/
theorem claim_C7 :
    chase_statement_extract
        [["Acct", "#", "1234)", "TOTAL", "ACCOUNT", "VALUE", "$100.00", "$150.00"]] =
      [("1234", ⟨none, some 100, some 150, none, none, none, none⟩)] := by
  decide

/-! ## Claim C8 -/

/-- C8, confirmed.  `schwab_statement_extract` registers at most one
account record: `acc_number` is document-global and set at most once (by
the first token that starts with a digit and contains exactly eight
digits), every record insertion is guarded by `acc_number` being unset,
and every later field write goes to that single key, so whenever the
extraction returns a mapping it has at most one entry. -/
theorem claim_C8 (pages : List Page) (d : Data)
    (h : schwab_statement_extract pages = some d) : d.length ≤ 1 := by
  unfold schwab_statement_extract at h
  cases hdoc : schwabDoc pages ⟨[], none, false, false, false⟩ with
  | none => rw [hdoc] at h; cases h
  | some st' =>
    rw [hdoc] at h
    have hinv := schwabDoc_inv pages ⟨[], none, false, false, false⟩
      ⟨fun _ => rfl, by decide⟩ st' hdoc
    cases h
    exact hinv.2

/-- C8, witness: a two-page Schwab stream containing two eight-digit
tokens still produces a single record, keyed by the first one. -/
theorem claim_C8_witness :
    schwab_statement_extract [["12345678", "x"], ["87654321"]] =
      some [("5678", ⟨none, none, none, none, none, none, none⟩)] ∧
    ([("5678", (⟨none, none, none, none, none, none, none⟩ : AccountRec))]).length ≤ 1 :=
  ⟨by decide,
    claim_C8 [["12345678", "x"], ["87654321"]]
      [("5678", ⟨none, none, none, none, none, none, none⟩)] (by decide)⟩

/-! ## Claim C9 -/

/-- C9, confirmed.  No Chase field matcher ever writes a record's `date`
slot during the page scan (the date block only updates the document-global
variable); every record date is produced by the uniform back-fill after
the last page, so all records of one result carry the identical
document-global date — `(chaseDoc pages ([], none)).2`, which is `none`
when no date was resolved. -/
theorem claim_C9 (pages : List Page) (k : String) (r : AccountRec)
    (hmem : (k, r) ∈ chase_statement_extract pages) :
    r.date = (chaseDoc pages ([], none)).2 :=
  chase_date_uniform pages k r hmem

/-- C9, witness: on a dateless document the record's date is the (absent)
global date. -/
theorem claim_C9_witness :
    ("1234", (⟨none, some 100, some 150, none, none, none, none⟩ : AccountRec)) ∈
      chase_statement_extract
        [["Acct", "#", "1234)", "TOTAL", "ACCOUNT", "VALUE", "$100.00", "$150.00"]] ∧
    (⟨none, some 100, some 150, none, none, none, none⟩ : AccountRec).date =
      (chaseDoc
        [["Acct", "#", "1234)", "TOTAL", "ACCOUNT", "VALUE", "$100.00", "$150.00"]]
        ([], none)).2 :=
  ⟨by decide,
    claim_C9
      [["Acct", "#", "1234)", "TOTAL", "ACCOUNT", "VALUE", "$100.00", "$150.00"]]
      "1234" ⟨none, some 100, some 150, none, none, none, none⟩ (by decide)⟩

/-! ## Claim C10 -/

/-- C10, confirmed.  Every key in a Chase result was admitted by
`int(acc_number)` being truthy, i.e. parsing to a nonzero integer; a key
made of zero digits only (such as `"0000"`) parses to `0`, so no record is
ever created under it and no result of `chase_statement_extract` contains
an all-zero-digit account key. -/
theorem claim_C10 (pages : List Page) (k : String) (r : AccountRec)
    (hmem : (k, r) ∈ chase_statement_extract pages) :
    ¬ (k ≠ "" ∧ ∀ c ∈ k.toList, c = '0') := by
  rintro ⟨hne, hzero⟩
  have hko : KeysOk (chase_statement_extract pages) :=
    keysOk_backfill (chaseDoc pages ([], none)).1 (chaseDoc pages ([], none)).2
      (chase_scan_keysOk pages)
  obtain ⟨n, hn, hne0⟩ := hko k r hmem
  have hz : pyInt k = some 0 :=
    pyInt_all_zero k (fun hh => hne ((toList_nil_iff k).mp hh)) hzero
  rw [hz] at hn
  cases hn
  exact hne0 rfl

/-- C10, witness: the theorem applied to the one record of a concrete
document — and, directly, a `"0000"` account anchor creates no record at
all. -/
theorem claim_C10_witness :
    chase_statement_extract [["Acct", "#", "0000)", "TOTAL", "ACCOUNT",
      "VALUE", "$1.00", "$2.00"]] = [] ∧
    ("1234", (⟨none, none, none, none, none, none, none⟩ : AccountRec)) ∈
      chase_statement_extract [["Acct", "#", "1234)"]] ∧
    ¬ (("1234" : String) ≠ "" ∧ ∀ c ∈ ("1234" : String).toList, c = '0') :=
  ⟨by decide, by decide,
    claim_C10 [["Acct", "#", "1234)"]] "1234"
      ⟨none, none, none, none, none, none, none⟩ (by decide)⟩

end StatementReader
